import Mathlib

/-!
Verification development for the graphql-to-diagram program (src/main.go).

The Go source is shallowly embedded: floating-point position arithmetic is
modelled over the real numbers, the process-global random source
(`rand.Float64`) is modelled as an explicit stream `rng : ℕ → ℝ` together
with a consumption counter that is threaded through every function that
draws from it, and in-place pointer mutation of the node slice is modelled
as explicit state passing over a `List Node` (updates through `List.set`
at the node's index, matching Go's sequential in-place Gauss-Seidel order).
-/

namespace GraphqlToDiagram

/-- 2-D position, Go struct `Position` (main.go:35). -/
structure Position where
  X : ℝ
  Y : ℝ

/-- Go struct `Field` (main.go:48): one field row of a class. -/
structure Field where
  Name : String
  Type' : String
  IsRequired : Bool
deriving DecidableEq

/-- Go struct `ClassNode` (main.go:39): the one node shape used by the
layout engine; scalar and directive wrappers are also built as `ClassNode`s
inside `calculateLayout`. -/
structure Node where
  ID : String
  Name : String
  Fields : List Field
  Position : Position
  Width : ℝ
  Height : ℝ

/-- Go struct `ScalarNode` (main.go:17). -/
structure ScalarNode where
  Name : String
  Description : String
  Position : Position

/-- Go struct `ArgumentNode` (main.go:69). -/
structure ArgumentNode where
  Name : String
  Type' : String
  IsRequired : Bool
  DefaultValue : String
deriving DecidableEq

/-- Go struct `DirectiveNode` (main.go:61). -/
structure DirectiveNode where
  Name : String
  Description : String
  Arguments : List ArgumentNode
  Locations : List String
  Position : Position

/-- Go struct `Relation` (main.go:54): `From`/`To` are node display names. -/
structure Relation where
  From : String
  To : String
  Type' : String
  EdgeType : String
deriving DecidableEq

/-- Go type `DiagramFormat` (main.go:23). -/
inductive DiagramFormat where
  | Mermaid : DiagramFormat
  | Drawio : DiagramFormat
deriving DecidableEq

/-- Go struct `Diagram` (main.go:76). -/
structure Diagram where
  Classes : List Node
  Relations : List Relation
  Scalars : List ScalarNode
  Directives : List DirectiveNode
  format : DiagramFormat
  maxWidth : ℝ
  maxHeight : ℝ

/-- main.go:87 -/
def ClassWidth : ℝ := 200
/-- main.go:88 -/
def ClassHeaderHeight : ℝ := 30
/-- main.go:89 -/
def FieldHeight : ℝ := 20
/-- main.go:101 -/
def ScalarWidth : ℝ := 80
/-- main.go:102 -/
def ScalarHeight : ℝ := 80
/-- main.go:107 -/
def DirectiveWidth : ℝ := 160
/-- main.go:108 -/
def DirectiveHeight : ℝ := 90

/-- main.go:97 -/
def ClassStyle : String :=
  "swimlane;fontStyle=1;align=center;verticalAlign=top;childLayout=stackLayout;horizontal=1;startSize=30;horizontalStack=0;resizeParent=1;resizeParentMax=0;resizeLast=0;collapsible=1;marginBottom=0;"
/-- main.go:98 -/
def FieldStyle : String :=
  "text;strokeColor=none;fillColor=none;align=left;verticalAlign=top;spacingLeft=4;spacingRight=4;overflow=hidden;rotatable=0;points=[[0,0.5],[1,0.5]];portConstraint=eastwest;"
/-- main.go:99 -/
def EdgeStyle : String :=
  "edgeStyle=orthogonalEdgeStyle;rounded=1;orthogonalLoop=1;jettySize=auto;html=1;"
/-- main.go:100 -/
def ScalarStyle : String :=
  "ellipse;whiteSpace=wrap;html=1;aspect=fixed;fillColor=#f5f5f5;"
/-- main.go:106 -/
def DirectiveStyle : String :=
  "shape=hexagon;perimeter=hexagonPerimeter2;whiteSpace=wrap;html=1;fixedSize=1;fillColor=#fff2cc;strokeColor=#d6b656;"
/-- main.go:109 -/
def ArgumentStyle : String :=
  "text;strokeColor=none;fillColor=none;align=left;verticalAlign=top;spacingLeft=4;spacingRight=4;overflow=hidden;rotatable=0;points=[[0,0.5],[1,0.5]];portConstraint=eastwest;"

/-- The distance divisor `math.Max(0.1, math.Sqrt(dx*dx+dy*dy))` used by both
the repulsion pass (main.go:189) and the attraction pass (main.go:210). -/
noncomputable def distFloor (dx dy : ℝ) : ℝ :=
  max 0.1 (Real.sqrt (dx * dx + dy * dy))

/-- One repulsion update of node `v` against node `u` (main.go:187-192):
force magnitude `k*k/dist` added along the scaled displacement. -/
noncomputable def repulseStep (k : ℝ) (v u : Position) : Position :=
  let dx := v.X - u.X
  let dy := v.Y - u.Y
  let dist := distFloor dx dy
  let force := (k * k) / dist
  ⟨v.X + (dx / dist) * force, v.Y + (dy / dist) * force⟩

/-- The body of the doubly nested repulsion loop for one ordered index pair
`(vi, ui)` (main.go:184-194): Go's `v != u` pointer test becomes the index
test `vi = ui`, and the in-place `v.Position` update becomes `List.set` at
`vi` on the current state. -/
noncomputable def applyRepulse (k : ℝ) (nodes : List Node) (vi ui : ℕ) : List Node :=
  if vi = ui then nodes
  else
    match nodes.get? vi, nodes.get? ui with
    | some v, some u =>
        nodes.set vi { v with Position := repulseStep k v.Position u.Position }
    | _, _ => nodes

/-- All ordered index pairs visited by the nested `for _, v` / `for _, u`
loops over a slice of length `n`, in source order. -/
def pairList (n : ℕ) : List (ℕ × ℕ) :=
  (List.range n).flatMap (fun vi => (List.range n).map (fun ui => (vi, ui)))

/-- The full repulsion pass of one iteration (main.go:184-195). -/
noncomputable def repulsePass (k : ℝ) (nodes : List Node) : List Node :=
  (pairList nodes.length).foldl (fun acc p => applyRepulse k acc p.1 p.2) nodes

/-- The endpoint lookup of the attraction pass (main.go:198-206): a forward
scan over `allNodes` in which each later `Name` match overwrites the earlier
one, so the last matching index wins. -/
def findLastIdx (nodes : List Node) (name : String) : Option ℕ :=
  nodes.enum.foldl (fun acc p => if p.2.Name = name then some p.1 else acc) none

/-- One attraction update for a single relation (main.go:197-218): both
endpoints are resolved by name; if either is missing the edge is skipped;
otherwise the `from` node moves by `-(ddx, ddy)` and the `to` node by
`+(ddx, ddy)` with force magnitude `dist*dist/k`.  The `to` update reads the
state after the `from` update, matching Go's mutation through pointers (in
particular an edge whose endpoints resolve to the same node has no net
effect, as in Go). -/
noncomputable def applyAttract (k : ℝ) (nodes : List Node) (rel : Relation) : List Node :=
  match findLastIdx nodes rel.From, findLastIdx nodes rel.To with
  | some fi, some ti =>
    match nodes.get? fi, nodes.get? ti with
    | some f, some t =>
      let dx := f.Position.X - t.Position.X
      let dy := f.Position.Y - t.Position.Y
      let dist := distFloor dx dy
      let force := (dist * dist) / k
      let ddx := (dx / dist) * force
      let ddy := (dy / dist) * force
      let nodes1 := nodes.set fi { f with Position := ⟨f.Position.X - ddx, f.Position.Y - ddy⟩ }
      match nodes1.get? ti with
      | some t1 => nodes1.set ti { t1 with Position := ⟨t1.Position.X + ddx, t1.Position.Y + ddy⟩ }
      | none => nodes1
    | _, _ => nodes
  | _, _ => nodes

/-- The full attraction pass of one iteration (main.go:197-219). -/
noncomputable def attractPass (k : ℝ) (rels : List Relation) (nodes : List Node) : List Node :=
  rels.foldl (fun acc rel => applyAttract k acc rel) nodes

/-- One iteration of the simulation loop body (main.go:183-220): the
repulsion pass followed by the attraction pass. -/
noncomputable def oneIter (k : ℝ) (rels : List Relation) (nodes : List Node) : List Node :=
  attractPass k rels (repulsePass k nodes)

/-- `n` iterations of the simulation loop (main.go:183, `iterations := 100`). -/
noncomputable def simulate (k : ℝ) (rels : List Relation) : ℕ → List Node → List Node
  | 0, nodes => nodes
  | n + 1, nodes => simulate k rels n (oneIter k rels nodes)

/-- The scalar wrapper nodes built at main.go:162-170, in slice order; each
consumes two values of the random stream (`rand.Float64()*maxWidth` then
`rand.Float64()*maxHeight`). -/
noncomputable def scalarWrappers (maxW maxH : ℝ) (rng : ℕ → ℝ) : ℕ → List ScalarNode → List Node
  | _, [] => []
  | c, s :: rest =>
      { ID := "scalar_" ++ s.Name
        Name := s.Name
        Fields := []
        Position := ⟨rng c * maxW, rng (c + 1) * maxH⟩
        Width := ScalarWidth
        Height := ScalarHeight } :: scalarWrappers maxW maxH rng (c + 2) rest

/-- The directive wrapper nodes built at main.go:172-181, in slice order;
height `DirectiveHeight + len(Arguments)*FieldHeight`, two random draws each. -/
noncomputable def directiveWrappers (maxW maxH : ℝ) (rng : ℕ → ℝ) : ℕ → List DirectiveNode → List Node
  | _, [] => []
  | c, dir :: rest =>
      { ID := "directive_" ++ dir.Name
        Name := "@" ++ dir.Name
        Fields := []
        Position := ⟨rng c * maxW, rng (c + 1) * maxH⟩
        Width := DirectiveWidth
        Height := DirectiveHeight + (dir.Arguments.length : ℝ) * FieldHeight } :: directiveWrappers maxW maxH rng (c + 2) rest

/-- The working node set of `calculateLayout` (main.go:159-181): the class
nodes as stored (no random placement), then the scalar wrappers, then the
directive wrappers; returns the advanced random counter. -/
noncomputable def buildAllNodes (d : Diagram) (rng : ℕ → ℝ) (ctr : ℕ) : List Node × ℕ :=
  let sw := scalarWrappers d.maxWidth d.maxHeight rng ctr d.Scalars
  let ctr1 := ctr + 2 * d.Scalars.length
  let dw := directiveWrappers d.maxWidth d.maxHeight rng ctr1 d.Directives
  (d.Classes ++ sw ++ dw, ctr1 + 2 * d.Directives.length)

/-- Go `calculateLayout` (main.go:154-221).  The mutation of the class
nodes through their pointers is modelled by replacing `Classes` with the
first `len(Classes)` entries of the simulated node list; the scalar and
directive wrapper nodes are discarded exactly as in the source (they are
local to `allNodes` and never copied back). -/
noncomputable def calculateLayout (d : Diagram) (rng : ℕ → ℝ) (ctr : ℕ) : Diagram × ℕ :=
  let totalNodes := d.Classes.length + d.Scalars.length + d.Directives.length
  let k := Real.sqrt (d.maxWidth * d.maxHeight / (totalNodes : ℝ))
  let built := buildAllNodes d rng ctr
  let finalNodes := simulate k d.Relations 100 built.1
  ({ d with Classes := finalNodes.take d.Classes.length }, built.2)

/-- Go struct `MxGeometry` (main.go:145), the cell geometry written to the
output XML. -/
structure MxGeometry where
  X : ℝ
  Y : ℝ
  Width : ℝ
  Height : ℝ
  Relative : String

/-- Go struct `MxCell` (main.go:133); `Geometry` is a nullable pointer. -/
structure MxCell where
  ID : String
  Value : String
  Style : String
  Parent : String
  Vertex : String
  Edge : String
  Source : String
  Target : String
  Geometry : Option MxGeometry

/-- The class box cell (main.go:240-256): geometry at `class.Position`,
height `ClassHeaderHeight + len(Fields)*FieldHeight`. -/
def classCell (c : Node) : MxCell :=
  { ID := c.ID
    Value := c.Name
    Style := ClassStyle
    Parent := "1"
    Vertex := "1"
    Edge := ""
    Source := ""
    Target := ""
    Geometry := some ⟨c.Position.X, c.Position.Y, ClassWidth,
      ClassHeaderHeight + (c.Fields.length : ℝ) * FieldHeight, ""⟩ }

/-- One field row cell (main.go:258-277). -/
def fieldCell (c : Node) (i : ℕ) (f : Field) : MxCell :=
  { ID := c.ID ++ "_f" ++ toString i
    Value := f.Name ++ ": " ++ f.Type' ++ (if f.IsRequired then "!" else "")
    Style := FieldStyle
    Parent := c.ID
    Vertex := "1"
    Edge := ""
    Source := ""
    Target := ""
    Geometry := some ⟨0, ClassHeaderHeight + (i : ℝ) * FieldHeight, ClassWidth, FieldHeight, ""⟩ }

/-- One relation edge cell (main.go:281-294). -/
def edgeCell (i : ℕ) (rel : Relation) : MxCell :=
  { ID := "e" ++ toString i
    Value := ""
    Style := EdgeStyle
    Parent := "1"
    Vertex := ""
    Edge := "1"
    Source := rel.From
    Target := rel.To
    Geometry := some ⟨0, 0, 0, 0, "1"⟩ }

/-- The scalar `ClassNode` appended to `d.Classes` before the second layout
call (main.go:296-305): zero-valued `Position{}`. -/
def scalarClassNode (s : ScalarNode) : Node :=
  { ID := "scalar_" ++ s.Name
    Name := s.Name
    Fields := []
    Position := ⟨0, 0⟩
    Width := ScalarWidth
    Height := ScalarHeight }

/-- The scalar ellipse cell (main.go:309-324): its geometry reads
`scalar.Position`, the `ScalarNode`'s own field. -/
def scalarCell (s : ScalarNode) : MxCell :=
  { ID := "scalar_" ++ s.Name
    Value := s.Name
    Style := ScalarStyle
    Parent := "1"
    Vertex := "1"
    Edge := ""
    Source := ""
    Target := ""
    Geometry := some ⟨s.Position.X, s.Position.Y, ScalarWidth, ScalarHeight, ""⟩ }

/-- The directive `ClassNode` appended to `d.Classes` before the third
layout call (main.go:326-335): zero-valued `Position{}`. -/
def directiveClassNode (dir : DirectiveNode) : Node :=
  { ID := "directive_" ++ dir.Name
    Name := "@" ++ dir.Name
    Fields := []
    Position := ⟨0, 0⟩
    Width := DirectiveWidth
    Height := DirectiveHeight + (dir.Arguments.length : ℝ) * FieldHeight }

/-- The directive hexagon cell (main.go:339-353): its geometry reads
`directive.Position`, the `DirectiveNode`'s own field. -/
def directiveCell (dir : DirectiveNode) : MxCell :=
  { ID := "directive_" ++ dir.Name
    Value := "@" ++ dir.Name ++ "\non " ++ String.intercalate (", ") dir.Locations
    Style := DirectiveStyle
    Parent := "1"
    Vertex := "1"
    Edge := ""
    Source := ""
    Target := ""
    Geometry := some ⟨dir.Position.X, dir.Position.Y, DirectiveWidth,
      DirectiveHeight + (dir.Arguments.length : ℝ) * FieldHeight, ""⟩ }

/-- One directive argument row cell (main.go:355-375). -/
def argCell (dir : DirectiveNode) (i : ℕ) (arg : ArgumentNode) : MxCell :=
  { ID := "directive_" ++ dir.Name ++ "_arg" ++ toString i
    Value := arg.Name ++ ": " ++ arg.Type' ++
      (if arg.DefaultValue ≠ "" then " = " ++ arg.DefaultValue else "")
    Style := ArgumentStyle
    Parent := "directive_" ++ dir.Name
    Vertex := "1"
    Edge := ""
    Source := ""
    Target := ""
    Geometry := some ⟨0, DirectiveHeight + (i : ℝ) * FieldHeight, DirectiveWidth, FieldHeight, ""⟩ }

/-- The two root cells `"0"` and `"1"` (main.go:231-234). -/
def baseCells : List MxCell :=
  [{ ID := "0", Value := "", Style := "", Parent := "", Vertex := "", Edge := "",
     Source := "", Target := "", Geometry := none },
   { ID := "1", Value := "", Style := "", Parent := "0", Vertex := "", Edge := "",
     Source := "", Target := "", Geometry := none }]

/-- Go `generateDrawIOXML` (main.go:223-380), up to XML serialisation: the
cell list in emission order, the final mutated diagram, and the advanced
random counter.  The function runs `calculateLayout` three times: once on
the original diagram, once after appending zero-positioned scalar
`ClassNode`s to `Classes`, and once after appending the directive
`ClassNode`s.  Class cells are built from the positions after the first
call; scalar and directive cells are built from `ScalarNode.Position` and
`DirectiveNode.Position`, which no layout call ever writes. -/
noncomputable def generateDrawioXML (d : Diagram) (rng : ℕ → ℝ) (ctr : ℕ) :
    List MxCell × Diagram × ℕ :=
  let r1 := calculateLayout d rng ctr
  let d1 := r1.1
  let classCells := d1.Classes.flatMap (fun c =>
    classCell c :: (c.Fields.enum.map (fun p => fieldCell c p.1 p.2)))
  let edgeCells := d1.Relations.enum.map (fun p => edgeCell p.1 p.2)
  let d2 := { d1 with Classes := d1.Classes ++ d1.Scalars.map scalarClassNode }
  let r2 := calculateLayout d2 rng r1.2
  let d3 := r2.1
  let scalarCells := d3.Scalars.map scalarCell
  let d4 := { d3 with Classes := d3.Classes ++ d3.Directives.map directiveClassNode }
  let r3 := calculateLayout d4 rng r2.2
  let d5 := r3.1
  let directiveCells := d5.Directives.flatMap (fun dir =>
    directiveCell dir :: (dir.Arguments.enum.map (fun p => argCell dir p.1 p.2)))
  (baseCells ++ classCells ++ edgeCells ++ scalarCells ++ directiveCells, d5, r3.2)

/-- Content of a class node: every field except `Position`. -/
def classContent (c : Node) : String × String × List Field × ℝ × ℝ :=
  (c.ID, c.Name, c.Fields, c.Width, c.Height)

/-- Content of a scalar node: every field except `Position`. -/
def scalarContent (s : ScalarNode) : String × String :=
  (s.Name, s.Description)

/-- Content of a directive node: every field except `Position`. -/
def directiveContent (dir : DirectiveNode) :
    String × String × List ArgumentNode × List String :=
  (dir.Name, dir.Description, dir.Arguments, dir.Locations)

/-- Two diagrams agree on all parsed schema content (they may differ in
node positions, format, and canvas bounds). -/
def contentEq (d1 d2 : Diagram) : Prop :=
  d1.Classes.map classContent = d2.Classes.map classContent ∧
  d1.Scalars.map scalarContent = d2.Scalars.map scalarContent ∧
  d1.Directives.map directiveContent = d2.Directives.map directiveContent ∧
  d1.Relations = d2.Relations

/-- The mermaid block printed for one directive (main.go:469-479). -/
def mermaidDirectiveBlock (t : String × String × List ArgumentNode × List String) :
    List String :=
  ("class " ++ t.1 ++ " \x7b\n    <<directive>>\n")
    :: (t.2.2.1.map (fun arg =>
        "    +" ++ arg.Name ++ ": " ++ arg.Type' ++
          (if arg.DefaultValue ≠ "" then " = " ++ arg.DefaultValue else "") ++ "\n"))
    ++ ["    +on " ++ String.intercalate (", ") t.2.2.2 ++ "\n\x7d\n"]

/-- The mermaid block printed for one scalar (main.go:481-483). -/
def mermaidScalarBlock (t : String × String) : List String :=
  ["class " ++ t.1 ++ " \x7b\n    <<scalar>>\n\x7d\n"]

/-- The mermaid block printed for one class (main.go:484-490). -/
def mermaidClassBlock (t : String × String × List Field × ℝ × ℝ) : List String :=
  ("class " ++ t.2.1 ++ " \x7b\n")
    :: (t.2.2.1.map (fun f => "    +" ++ f.Name ++ " " ++ f.Type' ++ "\n"))
    ++ ["\x7d\n"]

/-- The mermaid line printed for one relation (main.go:492-498). -/
def mermaidRelationLine (r : Relation) : String :=
  r.From ++ " " ++ (if r.EdgeType = "directive" then "..>" else "-->") ++ " " ++
    r.To ++ " : " ++ r.Type' ++ "\n"

/-- The mermaid branch of `outputDiagram` (main.go:467-499): the printed
lines in order.  Only schema content is read, never a `Position`. -/
def mermaidLines (d : Diagram) : List String :=
  ["classDiagram\n"]
    ++ d.Directives.flatMap (fun dir => mermaidDirectiveBlock (directiveContent dir))
    ++ d.Scalars.flatMap (fun s => mermaidScalarBlock (scalarContent s))
    ++ d.Classes.flatMap (fun c => mermaidClassBlock (classContent c))
    ++ d.Relations.map mermaidRelationLine

/-- What `outputDiagram` emits: mermaid text lines, or the drawio cell list. -/
inductive OutputKind where
  | MermaidOut : List String → OutputKind
  | DrawioOut : List MxCell → OutputKind

/-- Go `outputDiagram` (main.go:462-500): the drawio branch runs
`generateDrawIOXML` (which invokes the layout engine and consumes
randomness); the mermaid branch only prints schema content. -/
noncomputable def outputDiagram (d : Diagram) (rng : ℕ → ℝ) (ctr : ℕ) :
    OutputKind × Diagram × ℕ :=
  if d.format = DiagramFormat.Drawio then
    let r := generateDrawioXML d rng ctr
    (OutputKind.DrawioOut r.1, r.2.1, r.2.2)
  else
    (OutputKind.MermaidOut (mermaidLines d), d, ctr)

/-- Everything of a node except its position: identity, display name,
fields, width, height.  The layout engine must preserve this data. -/
def nodeShape (n : Node) : String × String × List Field × ℝ × ℝ :=
  (n.ID, n.Name, n.Fields, n.Width, n.Height)

/-- Replace a node's position by `(x, 0)` keeping everything else. -/
def setX (n : Node) (x : ℝ) : Node :=
  { n with Position := ⟨x, 0⟩ }

/-- A class node as `processSchema` builds it (main.go:390-404): position
and size fields left zero-valued. -/
def CA : Node := { ID := "cA", Name := "A", Fields := [], Position := ⟨0, 0⟩, Width := 0, Height := 0 }

/-- A second zero-positioned class node. -/
def CB : Node := { ID := "cB", Name := "B", Fields := [], Position := ⟨0, 0⟩, Width := 0, Height := 0 }

/-- A class node at position (3, 4). -/
def NB : Node := { ID := "cB", Name := "B", Fields := [], Position := ⟨3, 4⟩, Width := 0, Height := 0 }

/-- A scalar definition as `processSchema` builds it (main.go:415-420):
position zero-valued and never written afterwards. -/
def sS : ScalarNode := { Name := "S", Description := "", Position := ⟨0, 0⟩ }

/-- The scalar `ClassNode` that `generateDrawIOXML` appends for `sS`. -/
def nA : Node := scalarClassNode sS

/-- One-class diagram on the standard 1920 x 1080 canvas (main.go:522-530). -/
def D1 : Diagram :=
  { Classes := [CA], Relations := [], Scalars := [], Directives := [],
    format := DiagramFormat.Mermaid, maxWidth := 1920, maxHeight := 1080 }

/-- Two-class diagram, both classes at the zero position, no relations. -/
def D2 : Diagram :=
  { Classes := [CA, CB], Relations := [], Scalars := [], Directives := [],
    format := DiagramFormat.Mermaid, maxWidth := 1920, maxHeight := 1080 }

/-- One-scalar diagram in drawio format. -/
def D3 : Diagram :=
  { Classes := [], Relations := [], Scalars := [sS], Directives := [],
    format := DiagramFormat.Drawio, maxWidth := 1920, maxHeight := 1080 }

/-- `D3` after `generateDrawIOXML` has appended the scalar class node. -/
def DA : Diagram :=
  { Classes := [nA], Relations := [], Scalars := [sS], Directives := [],
    format := DiagramFormat.Drawio, maxWidth := 1920, maxHeight := 1080 }

/-- The diagram with no nodes at all. -/
def DEmpty : Diagram :=
  { Classes := [], Relations := [], Scalars := [], Directives := [],
    format := DiagramFormat.Mermaid, maxWidth := 1920, maxHeight := 1080 }

/-- A one-class mermaid diagram with the class moved to (5, 6): same
schema content as `D1`, different node position. -/
def DM2 : Diagram :=
  { Classes := [{ ID := "cA", Name := "A", Fields := [], Position := ⟨5, 6⟩, Width := 0, Height := 0 }],
    Relations := [], Scalars := [], Directives := [],
    format := DiagramFormat.Mermaid, maxWidth := 1920, maxHeight := 1080 }

/-- Constant random stream 1/2. -/
noncomputable def rngHalf : ℕ → ℝ := fun _ => 1 / 2

/-- Constant random stream 1/4. -/
noncomputable def rngQuarter : ℕ → ℝ := fun _ => 1 / 4

/-- Constant random stream 3/4. -/
noncomputable def rngThreeQuarters : ℕ → ℝ := fun _ => 3 / 4

/-- Random stream giving 1/2 for X draws (even indices) and 0 for Y draws
(odd indices). -/
noncomputable def rng3 : ℕ → ℝ := fun n => if n % 2 = 0 then 1 / 2 else 0

/-- Constant-zero random stream. -/
noncomputable def rg9a : ℕ → ℝ := fun _ => 0

/-- Random stream agreeing with `rg9a` on indices 0 and 1 only. -/
noncomputable def rg9b : ℕ → ℝ := fun n => if n < 2 then 0 else 1

/-- Relation between the two class names of `CA` and `NB`. -/
def relAB : Relation := { From := "A", To := "B", Type' := "uses", EdgeType := "" }

/-- Relation whose `To` endpoint names no node. -/
def relAM : Relation := { From := "A", To := "Missing", Type' := "uses", EdgeType := "" }

/-- The scalar wrapper node that `calculateLayout` builds for `sS` when the
random counter stands at `c`, on the `DA` canvas. -/
noncomputable def wS (c : ℕ) : Node :=
  { ID := "scalar_" ++ sS.Name
    Name := sS.Name
    Fields := []
    Position := ⟨rng3 c * DA.maxWidth, rng3 (c + 1) * DA.maxHeight⟩
    Width := ScalarWidth
    Height := ScalarHeight }

/-! ### Helper lemmas -/

lemma set_same {α : Type} : ∀ (l : List α) (i : ℕ) (a : α), l.get? i = some a → l.set i a = l
  | [], _, _, h => by rw [List.get?_nil] at h; exact Option.noConfusion h
  | b :: t, 0, a, h => by
      rw [List.get?_cons_zero] at h
      cases h
      rfl
  | b :: t, i + 1, a, h => by
      rw [List.get?_cons_succ] at h
      rw [List.set_cons_succ, set_same t i a h]

lemma shapes_set_update (l : List Node) (i : ℕ) (v : Node) (p : Position)
    (h : l.get? i = some v) :
    (l.set i { v with Position := p }).map nodeShape = l.map nodeShape := by
  rw [List.map_set]
  exact set_same _ _ _ (by rw [List.get?_map, h]; rfl)

lemma shapes_applyRepulse (k : ℝ) (l : List Node) (i j : ℕ) :
    (applyRepulse k l i j).map nodeShape = l.map nodeShape := by
  unfold applyRepulse
  split
  · rfl
  · split
    next v u hv hu => exact shapes_set_update l i v _ hv
    next => rfl

lemma shapes_applyAttract (k : ℝ) (l : List Node) (rel : Relation) :
    (applyAttract k l rel).map nodeShape = l.map nodeShape := by
  unfold applyAttract
  split
  next fi ti hfi hti =>
    split
    next f t hf ht =>
      dsimp only
      split
      next t1 ht1 =>
        rw [shapes_set_update _ ti t1 _ ht1]
        exact shapes_set_update l fi f _ hf
      next => exact shapes_set_update l fi f _ hf
    next => rfl
  next => rfl

lemma shapes_repulseFold (k : ℝ) :
    ∀ (ps : List (ℕ × ℕ)) (l : List Node),
      ((ps.foldl (fun acc p => applyRepulse k acc p.1 p.2) l).map nodeShape) = l.map nodeShape := by
  intro ps
  induction ps with
  | nil => intro l; rfl
  | cons p ps ih =>
      intro l
      rw [List.foldl_cons, ih, shapes_applyRepulse]

lemma shapes_repulsePass (k : ℝ) (l : List Node) :
    (repulsePass k l).map nodeShape = l.map nodeShape :=
  shapes_repulseFold k _ l

lemma shapes_attractPass (k : ℝ) :
    ∀ (rels : List Relation) (l : List Node),
      (attractPass k rels l).map nodeShape = l.map nodeShape := by
  intro rels
  induction rels with
  | nil => intro l; rfl
  | cons r rs ih =>
      intro l
      show (attractPass k rs (applyAttract k l r)).map nodeShape = l.map nodeShape
      rw [ih, shapes_applyAttract]

lemma shapes_oneIter (k : ℝ) (rels : List Relation) (l : List Node) :
    (oneIter k rels l).map nodeShape = l.map nodeShape := by
  unfold oneIter
  rw [shapes_attractPass, shapes_repulsePass]

lemma shapes_simulate (k : ℝ) (rels : List Relation) :
    ∀ (n : ℕ) (l : List Node), (simulate k rels n l).map nodeShape = l.map nodeShape := by
  intro n
  induction n with
  | zero => intro l; rfl
  | succ n ih =>
      intro l
      show (simulate k rels n (oneIter k rels l)).map nodeShape = l.map nodeShape
      rw [ih, shapes_oneIter]

lemma length_simulate (k : ℝ) (rels : List Relation) (n : ℕ) (l : List Node) :
    (simulate k rels n l).length = l.length := by
  have h := congrArg List.length (shapes_simulate k rels n l)
  simpa using h

lemma buildAllNodes_fst (d : Diagram) (rng : ℕ → ℝ) (ctr : ℕ) :
    (buildAllNodes d rng ctr).1 =
      d.Classes ++ scalarWrappers d.maxWidth d.maxHeight rng ctr d.Scalars ++
        directiveWrappers d.maxWidth d.maxHeight rng (ctr + 2 * d.Scalars.length) d.Directives :=
  rfl

lemma buildAllNodes_snd (d : Diagram) (rng : ℕ → ℝ) (ctr : ℕ) :
    (buildAllNodes d rng ctr).2 = ctr + 2 * d.Scalars.length + 2 * d.Directives.length :=
  rfl

lemma calcLayout_classes_shapes (d : Diagram) (rng : ℕ → ℝ) (ctr : ℕ) :
    (calculateLayout d rng ctr).1.Classes.map nodeShape = d.Classes.map nodeShape := by
  show (((simulate (Real.sqrt (d.maxWidth * d.maxHeight /
      ((d.Classes.length + d.Scalars.length + d.Directives.length : ℕ) : ℝ)))
      d.Relations 100 (buildAllNodes d rng ctr).1).take d.Classes.length).map nodeShape) =
    d.Classes.map nodeShape
  rw [List.map_take, shapes_simulate, buildAllNodes_fst, List.append_assoc, List.map_append]
  exact List.take_left' (by simp)

lemma calcLayout_classes_length (d : Diagram) (rng : ℕ → ℝ) (ctr : ℕ) :
    (calculateLayout d rng ctr).1.Classes.length = d.Classes.length := by
  have h := congrArg List.length (calcLayout_classes_shapes d rng ctr)
  simpa using h

lemma applyRepulse_diag (k : ℝ) (l : List Node) (i : ℕ) : applyRepulse k l i i = l := by
  unfold applyRepulse
  rw [if_pos rfl]

lemma applyRepulse_eval (k : ℝ) (l : List Node) (vi ui : ℕ) (v u : Node)
    (hne : vi ≠ ui) (hv : l.get? vi = some v) (hu : l.get? ui = some u) :
    applyRepulse k l vi ui =
      l.set vi { v with Position := repulseStep k v.Position u.Position } := by
  unfold applyRepulse
  rw [if_neg hne, hv, hu]

lemma applyAttract_eval (k : ℝ) (l : List Node) (rel : Relation) (fi ti : ℕ) (f t : Node)
    (hfi : findLastIdx l rel.From = some fi) (hti : findLastIdx l rel.To = some ti)
    (hne : fi ≠ ti) (hf : l.get? fi = some f) (ht : l.get? ti = some t) :
    applyAttract k l rel =
      (l.set fi { f with Position :=
          ⟨f.Position.X - ((f.Position.X - t.Position.X) /
              distFloor (f.Position.X - t.Position.X) (f.Position.Y - t.Position.Y)) *
              (distFloor (f.Position.X - t.Position.X) (f.Position.Y - t.Position.Y) *
                distFloor (f.Position.X - t.Position.X) (f.Position.Y - t.Position.Y) / k),
            f.Position.Y - ((f.Position.Y - t.Position.Y) /
              distFloor (f.Position.X - t.Position.X) (f.Position.Y - t.Position.Y)) *
              (distFloor (f.Position.X - t.Position.X) (f.Position.Y - t.Position.Y) *
                distFloor (f.Position.X - t.Position.X) (f.Position.Y - t.Position.Y) / k)⟩ }).set ti
        { t with Position :=
          ⟨t.Position.X + ((f.Position.X - t.Position.X) /
              distFloor (f.Position.X - t.Position.X) (f.Position.Y - t.Position.Y)) *
              (distFloor (f.Position.X - t.Position.X) (f.Position.Y - t.Position.Y) *
                distFloor (f.Position.X - t.Position.X) (f.Position.Y - t.Position.Y) / k),
            t.Position.Y + ((f.Position.Y - t.Position.Y) /
              distFloor (f.Position.X - t.Position.X) (f.Position.Y - t.Position.Y)) *
              (distFloor (f.Position.X - t.Position.X) (f.Position.Y - t.Position.Y) *
                distFloor (f.Position.X - t.Position.X) (f.Position.Y - t.Position.Y) / k)⟩ } := by
  unfold applyAttract
  rw [hfi, hti]
  dsimp only
  rw [hf, ht]
  dsimp only
  rw [List.get?_set_ne _ _ hne, ht]

lemma pairList_zero : pairList 0 = [] := rfl

lemma pairList_one : pairList 1 = [(0, 0)] := by decide

lemma pairList_two : pairList 2 = [(0, 0), (0, 1), (1, 0), (1, 1)] := by decide

lemma repulsePass_nil (k : ℝ) : repulsePass k [] = [] := rfl

lemma applyAttract_nil (k : ℝ) (rel : Relation) : applyAttract k [] rel = [] := rfl

lemma attractPass_nil (k : ℝ) : ∀ (rels : List Relation), attractPass k rels [] = [] := by
  intro rels
  induction rels with
  | nil => rfl
  | cons r rs ih =>
      show attractPass k rs (applyAttract k [] r) = []
      rw [applyAttract_nil]
      exact ih

lemma simulate_nil (k : ℝ) (rels : List Relation) : ∀ (n : ℕ), simulate k rels n [] = [] := by
  intro n
  induction n with
  | zero => rfl
  | succ n ih =>
      show simulate k rels n (oneIter k rels []) = []
      have h : oneIter k rels [] = [] := by
        unfold oneIter
        rw [repulsePass_nil, attractPass_nil]
      rw [h]
      exact ih

lemma repulseStep_self (k : ℝ) (p : Position) : repulseStep k p p = p := by
  cases p with
  | mk x y => simp [repulseStep, distFloor]

lemma oneIter_single (k : ℝ) (v : Node) : oneIter k [] [v] = [v] := by
  unfold oneIter attractPass
  rw [List.foldl_nil]
  show (pairList 1).foldl (fun acc p => applyRepulse k acc p.1 p.2) [v] = [v]
  rw [pairList_one, List.foldl_cons, List.foldl_nil, applyRepulse_diag]

lemma simulate_single (k : ℝ) (v : Node) : ∀ (n : ℕ), simulate k [] n [v] = [v] := by
  intro n
  induction n with
  | zero => rfl
  | succ n ih =>
      show simulate k [] n (oneIter k [] [v]) = [v]
      rw [oneIter_single]
      exact ih

lemma repulsePass_two (k : ℝ) (a b : Node) :
    repulsePass k [a, b] =
      [{ a with Position := repulseStep k a.Position b.Position },
       { b with Position := repulseStep k b.Position (repulseStep k a.Position b.Position) }] := by
  show (pairList 2).foldl (fun acc p => applyRepulse k acc p.1 p.2) [a, b] = _
  rw [pairList_two]
  simp only [List.foldl_cons, List.foldl_nil]
  rw [applyRepulse_diag k [a, b] 0,
    applyRepulse_eval k [a, b] 0 1 a b (by omega) rfl rfl]
  show applyRepulse k
      (applyRepulse k [{ a with Position := repulseStep k a.Position b.Position }, b] 1 0) 1 1 = _
  rw [applyRepulse_eval k [{ a with Position := repulseStep k a.Position b.Position }, b] 1 0 b
      { a with Position := repulseStep k a.Position b.Position } (by omega) rfl rfl]
  show applyRepulse k [{ a with Position := repulseStep k a.Position b.Position },
      { b with Position := repulseStep k b.Position (repulseStep k a.Position b.Position) }] 1 1 = _
  rw [applyRepulse_diag]

lemma oneIter_two (k : ℝ) (a b : Node) :
    oneIter k [] [a, b] =
      [{ a with Position := repulseStep k a.Position b.Position },
       { b with Position := repulseStep k b.Position (repulseStep k a.Position b.Position) }] := by
  unfold oneIter attractPass
  rw [List.foldl_nil]
  exact repulsePass_two k a b

lemma simulate_coincident (k : ℝ) : ∀ (n : ℕ) (a b : Node), a.Position = b.Position →
    simulate k [] n [a, b] = [a, b] := by
  intro n
  induction n with
  | zero => intro a b _; rfl
  | succ n ih =>
      intro a b h
      show simulate k [] n (oneIter k [] [a, b]) = [a, b]
      have key : repulseStep k a.Position b.Position = a.Position := by
        rw [h, repulseStep_self]
      have key2 : repulseStep k b.Position (repulseStep k a.Position b.Position) = b.Position := by
        rw [key, h, repulseStep_self]
      rw [oneIter_two, key2, key]
      have ea : ({ a with Position := a.Position } : Node) = a := rfl
      have eb : ({ b with Position := b.Position } : Node) = b := rfl
      rw [ea, eb]
      exact ih a b h

lemma pos_eta (p : Position) (h : p.Y = 0) : p = ⟨p.X, 0⟩ := by
  cases p with
  | mk x y =>
      simp only at h
      rw [h]

lemma setX_self (a : Node) (h : a.Position.Y = 0) : setX a a.Position.X = a := by
  cases a with
  | mk id name fields pos w ht =>
      cases pos with
      | mk x y =>
          simp only at h
          simp [setX, h]

lemma setX_setX (a : Node) (x y : ℝ) : setX (setX a x) y = setX a y := rfl

lemma repulseStep_y0 (k x1 x2 : ℝ) :
    repulseStep k ⟨x1, 0⟩ ⟨x2, 0⟩ =
      ⟨x1 + ((x1 - x2) / max 0.1 |x1 - x2|) * (k * k / max 0.1 |x1 - x2|), 0⟩ := by
  simp [repulseStep, distFloor, Real.sqrt_mul_self_eq_abs]

lemma repulse_x_decreases (k x1 x2 : ℝ) (hk : 0 < k) (h : x1 < x2) :
    x1 + ((x1 - x2) / max 0.1 |x1 - x2|) * (k * k / max 0.1 |x1 - x2|) < x1 := by
  have hD : (0 : ℝ) < max 0.1 |x1 - x2| :=
    lt_of_lt_of_le (by norm_num) (le_max_left _ _)
  have h1 : (x1 - x2) / max 0.1 |x1 - x2| < 0 := div_neg_of_neg_of_pos (by linarith) hD
  have h2 : 0 < k * k / max 0.1 |x1 - x2| := div_pos (mul_pos hk hk) hD
  have h3 := mul_neg_of_neg_of_pos h1 h2
  linarith

lemma repulse_x_increases (k x1 x2 : ℝ) (hk : 0 < k) (h : x2 < x1) :
    x1 < x1 + ((x1 - x2) / max 0.1 |x1 - x2|) * (k * k / max 0.1 |x1 - x2|) := by
  have hD : (0 : ℝ) < max 0.1 |x1 - x2| :=
    lt_of_lt_of_le (by norm_num) (le_max_left _ _)
  have h1 : 0 < (x1 - x2) / max 0.1 |x1 - x2| := div_pos (by linarith) hD
  have h2 : 0 < k * k / max 0.1 |x1 - x2| := div_pos (mul_pos hk hk) hD
  have h3 := mul_pos h1 h2
  linarith

lemma oneIter_two_y0 (k : ℝ) (hk : 0 < k) (a b : Node)
    (ha : a.Position.Y = 0) (hb : b.Position.Y = 0) (hab : a.Position.X < b.Position.X) :
    ∃ x1 x2, oneIter k [] [a, b] = [setX a x1, setX b x2] ∧
      x1 < a.Position.X ∧ b.Position.X < x2 := by
  have ea : a.Position = ⟨a.Position.X, 0⟩ := pos_eta _ ha
  have eb : b.Position = ⟨b.Position.X, 0⟩ := pos_eta _ hb
  set x1 : ℝ := a.Position.X + ((a.Position.X - b.Position.X) /
      max 0.1 |a.Position.X - b.Position.X|) *
      (k * k / max 0.1 |a.Position.X - b.Position.X|) with hx1def
  set x2 : ℝ := b.Position.X + ((b.Position.X - x1) /
      max 0.1 |b.Position.X - x1|) *
      (k * k / max 0.1 |b.Position.X - x1|) with hx2def
  have h1 : repulseStep k a.Position b.Position = ⟨x1, 0⟩ := by
    rw [hx1def]
    conv_lhs => rw [ea, eb]
    exact repulseStep_y0 k _ _
  have hx1 : x1 < a.Position.X := by
    rw [hx1def]
    exact repulse_x_decreases k _ _ hk hab
  have h2 : repulseStep k b.Position (⟨x1, 0⟩ : Position) = ⟨x2, 0⟩ := by
    rw [hx2def]
    conv_lhs => rw [eb]
    exact repulseStep_y0 k _ _
  have hx2 : b.Position.X < x2 := by
    rw [hx2def]
    exact repulse_x_increases k _ _ hk (lt_trans hx1 hab)
  refine ⟨x1, x2, ?_, hx1, hx2⟩
  rw [oneIter_two, h1, h2]
  rfl

lemma simulate_two_y0 (k : ℝ) (hk : 0 < k) :
    ∀ (n : ℕ) (a b : Node), a.Position.Y = 0 → b.Position.Y = 0 →
      a.Position.X < b.Position.X →
      ∃ xa xb, simulate k [] n [a, b] = [setX a xa, setX b xb] ∧
        xa ≤ a.Position.X ∧ xa < xb ∧ b.Position.X ≤ xb ∧
        (0 < n → xa < a.Position.X) := by
  intro n
  induction n with
  | zero =>
      intro a b ha hb hab
      refine ⟨a.Position.X, b.Position.X, ?_, le_refl _, hab, le_refl _, by omega⟩
      rw [setX_self a ha, setX_self b hb]
      rfl
  | succ n ih =>
      intro a b ha hb hab
      obtain ⟨x1, x2, hone, hx1, hx2⟩ := oneIter_two_y0 k hk a b ha hb hab
      have hlt : (setX a x1).Position.X < (setX b x2).Position.X := by
        show x1 < x2
        calc x1 < a.Position.X := hx1
          _ < b.Position.X := hab
          _ < x2 := hx2
      obtain ⟨xa, xb, hsim, hle, hlt2, hge, _⟩ :=
        ih (setX a x1) (setX b x2) rfl rfl hlt
      refine ⟨xa, xb, ?_, ?_, hlt2, ?_, ?_⟩
      · show simulate k [] n (oneIter k [] [a, b]) = [setX a xa, setX b xb]
        rw [hone, hsim, setX_setX, setX_setX]
      · calc xa ≤ (setX a x1).Position.X := hle
          _ = x1 := rfl
          _ ≤ a.Position.X := le_of_lt hx1
      · calc b.Position.X ≤ x2 := le_of_lt hx2
          _ = (setX b x2).Position.X := rfl
          _ ≤ xb := hge
      · intro _
        calc xa ≤ x1 := hle
          _ < a.Position.X := hx1

lemma calculateLayout_eq (d : Diagram) (rng : ℕ → ℝ) (ctr : ℕ) (ns res : List Node)
    (hns : (buildAllNodes d rng ctr).1 = ns)
    (hres : simulate (Real.sqrt (d.maxWidth * d.maxHeight /
        ((d.Classes.length + d.Scalars.length + d.Directives.length : ℕ) : ℝ)))
      d.Relations 100 ns = res) :
    calculateLayout d rng ctr =
      ({ d with Classes := res.take d.Classes.length }, (buildAllNodes d rng ctr).2) := by
  show ({ d with Classes := (simulate (Real.sqrt (d.maxWidth * d.maxHeight /
      ((d.Classes.length + d.Scalars.length + d.Directives.length : ℕ) : ℝ)))
      d.Relations 100 (buildAllNodes d rng ctr).1).take d.Classes.length },
    (buildAllNodes d rng ctr).2) = _
  rw [hns, hres]

lemma generateDrawioXML_eq (d : Diagram) (rng : ℕ → ℝ) (ctr : ℕ)
    (d1 : Diagram) (c1 : ℕ) (h1 : calculateLayout d rng ctr = (d1, c1))
    (d3 : Diagram) (c2 : ℕ)
    (h2 : calculateLayout { d1 with Classes := d1.Classes ++ d1.Scalars.map scalarClassNode }
      rng c1 = (d3, c2))
    (d5 : Diagram) (c3 : ℕ)
    (h3 : calculateLayout { d3 with Classes := d3.Classes ++ d3.Directives.map directiveClassNode }
      rng c2 = (d5, c3)) :
    generateDrawioXML d rng ctr =
      (baseCells
        ++ d1.Classes.flatMap (fun c => classCell c :: (c.Fields.enum.map (fun p => fieldCell c p.1 p.2)))
        ++ d1.Relations.enum.map (fun p => edgeCell p.1 p.2)
        ++ d3.Scalars.map scalarCell
        ++ d5.Directives.flatMap (fun dir =>
            directiveCell dir :: (dir.Arguments.enum.map (fun p => argCell dir p.1 p.2))),
       d5, c3) := by
  simp only [generateDrawioXML]
  rw [h1]
  dsimp only
  rw [h2]
  dsimp only
  rw [h3]

lemma scalarWrappers_congr (maxW maxH : ℝ) (rng1 rng2 : ℕ → ℝ) :
    ∀ (l : List ScalarNode) (c : ℕ),
      (∀ i, i < 2 * l.length → rng1 (c + i) = rng2 (c + i)) →
      scalarWrappers maxW maxH rng1 c l = scalarWrappers maxW maxH rng2 c l := by
  intro l
  induction l with
  | nil => intro c _; rfl
  | cons s rest ih =>
      intro c h
      have h0 : rng1 c = rng2 c := by
        have := h 0 (by simp only [List.length_cons]; omega)
        simpa using this
      have h1 : rng1 (c + 1) = rng2 (c + 1) :=
        h 1 (by simp only [List.length_cons]; omega)
      simp only [scalarWrappers]
      rw [h0, h1, ih (c + 2) ?_]
      intro i hi
      have := h (i + 2) (by simp only [List.length_cons]; omega)
      rw [show c + 2 + i = c + (i + 2) from by omega]
      exact this

lemma directiveWrappers_congr (maxW maxH : ℝ) (rng1 rng2 : ℕ → ℝ) :
    ∀ (l : List DirectiveNode) (c : ℕ),
      (∀ i, i < 2 * l.length → rng1 (c + i) = rng2 (c + i)) →
      directiveWrappers maxW maxH rng1 c l = directiveWrappers maxW maxH rng2 c l := by
  intro l
  induction l with
  | nil => intro c _; rfl
  | cons dir rest ih =>
      intro c h
      have h0 : rng1 c = rng2 c := by
        have := h 0 (by simp only [List.length_cons]; omega)
        simpa using this
      have h1 : rng1 (c + 1) = rng2 (c + 1) :=
        h 1 (by simp only [List.length_cons]; omega)
      simp only [directiveWrappers]
      rw [h0, h1, ih (c + 2) ?_]
      intro i hi
      have := h (i + 2) (by simp only [List.length_cons]; omega)
      rw [show c + 2 + i = c + (i + 2) from by omega]
      exact this

lemma scalarWrappers_bounds (maxW maxH : ℝ) (rng : ℕ → ℝ)
    (hr0 : ∀ n, 0 ≤ rng n) (hr1 : ∀ n, rng n < 1) (hW : 0 < maxW) (hH : 0 < maxH) :
    ∀ (l : List ScalarNode) (c : ℕ) (node : Node),
      node ∈ scalarWrappers maxW maxH rng c l →
      0 ≤ node.Position.X ∧ node.Position.X < maxW ∧
        0 ≤ node.Position.Y ∧ node.Position.Y < maxH := by
  intro l
  induction l with
  | nil => intro c node h; exact absurd h (by simp [scalarWrappers])
  | cons s rest ih =>
      intro c node h
      rw [scalarWrappers] at h
      rcases List.mem_cons.mp h with h | h
      · subst h
        exact ⟨mul_nonneg (hr0 c) hW.le, mul_lt_of_lt_one_left hW (hr1 c),
          mul_nonneg (hr0 (c + 1)) hH.le, mul_lt_of_lt_one_left hH (hr1 (c + 1))⟩
      · exact ih (c + 2) node h

lemma directiveWrappers_bounds (maxW maxH : ℝ) (rng : ℕ → ℝ)
    (hr0 : ∀ n, 0 ≤ rng n) (hr1 : ∀ n, rng n < 1) (hW : 0 < maxW) (hH : 0 < maxH) :
    ∀ (l : List DirectiveNode) (c : ℕ) (node : Node),
      node ∈ directiveWrappers maxW maxH rng c l →
      0 ≤ node.Position.X ∧ node.Position.X < maxW ∧
        0 ≤ node.Position.Y ∧ node.Position.Y < maxH := by
  intro l
  induction l with
  | nil => intro c node h; exact absurd h (by simp [directiveWrappers])
  | cons dir rest ih =>
      intro c node h
      rw [directiveWrappers] at h
      rcases List.mem_cons.mp h with h | h
      · subst h
        exact ⟨mul_nonneg (hr0 c) hW.le, mul_lt_of_lt_one_left hW (hr1 c),
          mul_nonneg (hr0 (c + 1)) hH.le, mul_lt_of_lt_one_left hH (hr1 (c + 1))⟩
      · exact ih (c + 2) node h

lemma flatMap_through {α β γ : Type} (p : α → β) (g : β → List γ) :
    ∀ (l : List α), l.flatMap (fun a => g (p a)) = (l.map p).flatMap g := by
  intro l
  induction l with
  | nil => rfl
  | cons a rest ih =>
      show g (p a) ++ rest.flatMap (fun x => g (p x)) = g (p a) ++ (rest.map p).flatMap g
      rw [ih]

lemma flatMap_content {α β γ : Type} (p : α → β) (g : β → List γ) (l1 l2 : List α)
    (h : l1.map p = l2.map p) :
    l1.flatMap (fun a => g (p a)) = l2.flatMap (fun a => g (p a)) := by
  rw [flatMap_through p g l1, flatMap_through p g l2, h]

/-! ### Claim theorems -/

/-- C1 (counterexample): the class node of the one-class diagram `D1` enters
the working node set of `calculateLayout` at its stored position `(0, 0)`
under two different random streams, and no randomness is consumed (the
returned counter is still 0) — so class nodes are NOT assigned a position
drawn from the random source, which for stream 1/4 would have been
`(480, 270)` and for stream 3/4 `(1440, 810)`. -/
theorem C1_counterexample :
    buildAllNodes D1 rngQuarter 0 = ([CA], 0) ∧
    buildAllNodes D1 rngThreeQuarters 0 = ([CA], 0) ∧
    CA.Position.X = 0 ∧ CA.Position.Y = 0 ∧
    rngQuarter 0 * D1.maxWidth = 480 ∧ rngThreeQuarters 0 * D1.maxWidth = 1440 := by
  refine ⟨rfl, rfl, rfl, rfl, ?_, ?_⟩ <;> norm_num [rngQuarter, rngThreeQuarters, D1]

/-- C1 (amended): only the scalar and directive wrapper nodes receive an
initial position drawn uniformly at random within
`[0, maxWidth) x [0, maxHeight)`; the class nodes enter the working node set
with their stored positions unchanged (the class prefix of the working node
set is exactly `d.Classes`). -/
theorem C1_initialPlacement : ∀ (d : Diagram) (rng : ℕ → ℝ) (ctr : ℕ),
    (∀ n, 0 ≤ rng n) → (∀ n, rng n < 1) → 0 < d.maxWidth → 0 < d.maxHeight →
    ((buildAllNodes d rng ctr).1.take d.Classes.length = d.Classes) ∧
    (∀ node ∈ (buildAllNodes d rng ctr).1.drop d.Classes.length,
        0 ≤ node.Position.X ∧ node.Position.X < d.maxWidth ∧
          0 ≤ node.Position.Y ∧ node.Position.Y < d.maxHeight) := by
  intro d rng ctr hr0 hr1 hW hH
  constructor
  · rw [buildAllNodes_fst, List.append_assoc]
    exact List.take_left' rfl
  · intro node hmem
    rw [buildAllNodes_fst, List.append_assoc, List.drop_left' rfl] at hmem
    rcases List.mem_append.mp hmem with h | h
    · exact scalarWrappers_bounds _ _ _ hr0 hr1 hW hH _ _ _ h
    · exact directiveWrappers_bounds _ _ _ hr0 hr1 hW hH _ _ _ h

/-- C1 (witness): the amended placement theorem applied to the one-scalar
diagram `D3` with the constant stream 1/2. -/
theorem C1_witness :
    ((buildAllNodes D3 rngHalf 0).1.take D3.Classes.length = D3.Classes) ∧
    (∀ node ∈ (buildAllNodes D3 rngHalf 0).1.drop D3.Classes.length,
        0 ≤ node.Position.X ∧ node.Position.X < D3.maxWidth ∧
          0 ≤ node.Position.Y ∧ node.Position.Y < D3.maxHeight) :=
  C1_initialPlacement D3 rngHalf 0 (fun _ => by norm_num [rngHalf])
    (fun _ => by norm_num [rngHalf]) (by norm_num [D3]) (by norm_num [D3])

/-- C2 (counterexample): two distinct class nodes that both start at the
exact coordinate `(0, 0)` (as `processSchema` creates them) are still at the
exact same coordinate after the full 100-iteration simulation of
`calculateLayout` — the repulsion direction vector `(dx/dist, dy/dist)` is
the zero vector for coincident nodes, so the 0.1 distance floor never
separates them. -/
theorem C2_counterexample :
    (calculateLayout D2 rngHalf 0).1.Classes.map (fun n => (n.ID, n.Position.X, n.Position.Y)) =
      [("cA", 0, 0), ("cB", 0, 0)] := by
  have h : simulate (Real.sqrt (D2.maxWidth * D2.maxHeight /
      ((D2.Classes.length + D2.Scalars.length + D2.Directives.length : ℕ) : ℝ)))
      D2.Relations 100 (buildAllNodes D2 rngHalf 0).1 = [CA, CB] :=
    simulate_coincident _ 100 CA CB rfl
  have h2 := calculateLayout_eq D2 rngHalf 0 (buildAllNodes D2 rngHalf 0).1 [CA, CB] rfl h
  rw [h2]
  rfl

/-- C2 (amended): for any node set with zero edges the simulation completes
(it returns a full position assignment, one position per node), but two
nodes starting at identical coordinates remain at identical coordinates
after any number of iterations, so pairwise separation is not guaranteed. -/
theorem C2_separation :
    (∀ (k : ℝ) (rels : List Relation) (n : ℕ) (nodes : List Node),
        (simulate k rels n nodes).length = nodes.length) ∧
    (∀ (k : ℝ) (n : ℕ) (a b : Node), a.Position = b.Position →
        simulate k [] n [a, b] = [a, b]) :=
  ⟨fun k rels n nodes => length_simulate k rels n nodes,
   fun k n a b h => simulate_coincident k n a b h⟩

/-- C2 (witness): the amended theorem applied to the two coincident class
nodes `CA`, `CB` with `k = 7`. -/
theorem C2_witness :
    (simulate (7 : ℝ) [] 100 [CA, CB]).length = ([CA, CB] : List Node).length ∧
    simulate (7 : ℝ) [] 100 [CA, CB] = [CA, CB] :=
  ⟨C2_separation.1 7 [] 100 [CA, CB], C2_separation.2 7 100 CA CB rfl⟩

/-- C4 (counterexample): invoking the layout with zero nodes does NOT fail —
there is no `EmptyGraphError` anywhere in the program.  `calculateLayout`
computes `k = sqrt(area/0)` (in Go: +Inf, never used because the node list
is empty), runs the loops over an empty node list, and returns with the
diagram unchanged and no randomness consumed. -/
theorem C4_counterexample : calculateLayout DEmpty rngHalf 0 = (DEmpty, 0) := by
  have h := calculateLayout_eq DEmpty rngHalf 0 [] [] rfl (simulate_nil _ _ 100)
  rw [h]
  rfl

/-- C4 (amended): with zero classes, scalars and directives the layout call
completes normally (no error path exists), performs no position update, and
mutates no state: the diagram and the random counter are returned exactly
as supplied. -/
theorem C4_emptyGraph : ∀ (d : Diagram) (rng : ℕ → ℝ) (ctr : ℕ),
    d.Classes = [] → d.Scalars = [] → d.Directives = [] →
    calculateLayout d rng ctr = (d, ctr) := by
  intro d rng ctr hc hs hd
  obtain ⟨cl, rl, sl, dl, fm, mw, mh⟩ := d
  have hc' : cl = [] := hc
  have hs' : sl = [] := hs
  have hd' : dl = [] := hd
  subst hc' hs' hd'
  have h := calculateLayout_eq ⟨[], rl, [], [], fm, mw, mh⟩ rng ctr [] [] rfl
    (simulate_nil _ _ 100)
  rw [h]
  rfl

/-- C4 (witness): the amended theorem applied to the empty diagram. -/
theorem C4_witness : calculateLayout DEmpty rngQuarter 0 = (DEmpty, 0) :=
  C4_emptyGraph DEmpty rngQuarter 0 rfl rfl rfl

/-- C5: the repulsion pass visits exactly the ordered index pairs
`(vi, ui)` with `vi, ui < n` (skipping `vi = ui`), and each visit adds to
`v`'s position the displacement `(dx/dist, dy/dist)` scaled by the force
magnitude `k*k/dist`; the attraction pass, for a resolvable edge with
distinct endpoints, moves the `from` node by `-(ddx, ddy)` and the `to`
node by `+(ddx, ddy)` — equal and opposite — with force magnitude
`dist*dist/k`, where `dist` is the floored distance in both passes. -/
theorem C5_forcePasses :
    (∀ (n vi ui : ℕ), ((vi, ui) ∈ pairList n ↔ vi < n ∧ ui < n)) ∧
    (∀ (k : ℝ) (nodes : List Node) (i : ℕ), applyRepulse k nodes i i = nodes) ∧
    (∀ (k : ℝ) (nodes : List Node) (vi ui : ℕ) (v u : Node), vi ≠ ui →
      nodes.get? vi = some v → nodes.get? ui = some u →
      ∀ dx dy dist : ℝ, dx = v.Position.X - u.Position.X →
        dy = v.Position.Y - u.Position.Y → dist = distFloor dx dy →
        applyRepulse k nodes vi ui = nodes.set vi { v with Position :=
          ⟨v.Position.X + (dx / dist) * (k * k / dist),
           v.Position.Y + (dy / dist) * (k * k / dist)⟩ }) ∧
    (∀ (k : ℝ) (nodes : List Node) (rel : Relation) (fi ti : ℕ) (f t : Node),
      findLastIdx nodes rel.From = some fi → findLastIdx nodes rel.To = some ti →
      fi ≠ ti → nodes.get? fi = some f → nodes.get? ti = some t →
      ∀ dx dy dist ddx ddy : ℝ, dx = f.Position.X - t.Position.X →
        dy = f.Position.Y - t.Position.Y → dist = distFloor dx dy →
        ddx = (dx / dist) * (dist * dist / k) → ddy = (dy / dist) * (dist * dist / k) →
        applyAttract k nodes rel =
          (nodes.set fi { f with Position := ⟨f.Position.X - ddx, f.Position.Y - ddy⟩ }).set ti
            { t with Position := ⟨t.Position.X + ddx, t.Position.Y + ddy⟩ }) := by
  refine ⟨?_, ?_, ?_, ?_⟩
  · intro n vi ui
    simp only [pairList, List.mem_flatMap, List.mem_range, List.mem_map, Prod.mk.injEq]
    constructor
    · rintro ⟨a, ha, b, hb, h1, h2⟩
      subst h1
      subst h2
      exact ⟨ha, hb⟩
    · rintro ⟨h1, h2⟩
      exact ⟨vi, h1, ui, h2, rfl, rfl⟩
  · intro k nodes i
    exact applyRepulse_diag k nodes i
  · intro k nodes vi ui v u hne hv hu dx dy dist hdx hdy hdist
    subst hdx
    subst hdy
    subst hdist
    exact applyRepulse_eval k nodes vi ui v u hne hv hu
  · intro k nodes rel fi ti f t hfi hti hne hf ht dx dy dist ddx ddy hdx hdy hdist hddx hddy
    subst hdx
    subst hdy
    subst hdist
    subst hddx
    subst hddy
    exact applyAttract_eval k nodes rel fi ti f t hfi hti hne hf ht

/-- C5 (witness): the pair-update equations instantiated on the concrete
two-node list `[CA, NB]` at `k = 5` and the relation `A -> B`. -/
theorem C5_witness :
    applyRepulse 5 [CA, NB] 0 1 = [CA, NB].set 0 { CA with Position :=
      ⟨CA.Position.X + ((CA.Position.X - NB.Position.X) /
          distFloor (CA.Position.X - NB.Position.X) (CA.Position.Y - NB.Position.Y)) *
          (5 * 5 / distFloor (CA.Position.X - NB.Position.X) (CA.Position.Y - NB.Position.Y)),
        CA.Position.Y + ((CA.Position.Y - NB.Position.Y) /
          distFloor (CA.Position.X - NB.Position.X) (CA.Position.Y - NB.Position.Y)) *
          (5 * 5 / distFloor (CA.Position.X - NB.Position.X) (CA.Position.Y - NB.Position.Y))⟩ } ∧
    applyAttract 5 [CA, NB] relAB = ([CA, NB].set 0 { CA with Position :=
      ⟨CA.Position.X - ((CA.Position.X - NB.Position.X) /
          distFloor (CA.Position.X - NB.Position.X) (CA.Position.Y - NB.Position.Y)) *
          (distFloor (CA.Position.X - NB.Position.X) (CA.Position.Y - NB.Position.Y) *
            distFloor (CA.Position.X - NB.Position.X) (CA.Position.Y - NB.Position.Y) / 5),
        CA.Position.Y - ((CA.Position.Y - NB.Position.Y) /
          distFloor (CA.Position.X - NB.Position.X) (CA.Position.Y - NB.Position.Y)) *
          (distFloor (CA.Position.X - NB.Position.X) (CA.Position.Y - NB.Position.Y) *
            distFloor (CA.Position.X - NB.Position.X) (CA.Position.Y - NB.Position.Y) / 5)⟩ }).set 1
      { NB with Position :=
        ⟨NB.Position.X + ((CA.Position.X - NB.Position.X) /
            distFloor (CA.Position.X - NB.Position.X) (CA.Position.Y - NB.Position.Y)) *
            (distFloor (CA.Position.X - NB.Position.X) (CA.Position.Y - NB.Position.Y) *
              distFloor (CA.Position.X - NB.Position.X) (CA.Position.Y - NB.Position.Y) / 5),
          NB.Position.Y + ((CA.Position.Y - NB.Position.Y) /
            distFloor (CA.Position.X - NB.Position.X) (CA.Position.Y - NB.Position.Y)) *
            (distFloor (CA.Position.X - NB.Position.X) (CA.Position.Y - NB.Position.Y) *
              distFloor (CA.Position.X - NB.Position.X) (CA.Position.Y - NB.Position.Y) / 5)⟩ } :=
  ⟨C5_forcePasses.2.2.1 5 [CA, NB] 0 1 CA NB (by omega) rfl rfl _ _ _ rfl rfl rfl,
   C5_forcePasses.2.2.2 5 [CA, NB] relAB 0 1 CA NB rfl rfl (by omega) rfl rfl
     _ _ _ _ _ rfl rfl rfl rfl rfl⟩

/-- C6: an edge whose `from` or `to` name resolves to no node in the
working node set is skipped by the attraction pass with no effect on the
node list, and a full layout call still completes with a position for every
class node (the class list keeps its length). -/
theorem C6_skipDangling :
    (∀ (k : ℝ) (nodes : List Node) (rel : Relation),
        findLastIdx nodes rel.From = none ∨ findLastIdx nodes rel.To = none →
        applyAttract k nodes rel = nodes) ∧
    (∀ (d : Diagram) (rng : ℕ → ℝ) (ctr : ℕ),
        (calculateLayout d rng ctr).1.Classes.length = d.Classes.length) := by
  constructor
  · intro k nodes rel h
    unfold applyAttract
    cases hF : findLastIdx nodes rel.From with
    | none => rfl
    | some fi =>
        cases hT : findLastIdx nodes rel.To with
        | none => rfl
        | some ti =>
            rcases h with h | h
            · rw [h] at hF
              exact Option.noConfusion hF
            · rw [h] at hT
              exact Option.noConfusion hT
  · exact calcLayout_classes_length

/-- C6 (witness): the edge `A -> Missing` is skipped on the node list
`[CA]`, and the one-class diagram `D1` still has one class after layout. -/
theorem C6_witness :
    applyAttract 5 [CA] relAM = [CA] ∧
    (calculateLayout D1 rngHalf 0).1.Classes.length = D1.Classes.length :=
  ⟨C6_skipDangling.1 5 [CA] relAM (Or.inr rfl), C6_skipDangling.2 D1 rngHalf 0⟩

/-- C7: the distance divisor used by both passes is
`max(0.1, sqrt(dx*dx+dy*dy))` — the same `distFloor` term appears as the
divisor in `repulseStep` (repulsion) and in `applyAttract` (attraction) —
and it is always at least 0.1 and in particular never zero, so no division
by zero can occur on coincident points. -/
theorem C7_distanceFloor : ∀ dx dy : ℝ,
    0.1 ≤ distFloor dx dy ∧ distFloor dx dy ≠ 0 ∧
    distFloor dx dy = max 0.1 (Real.sqrt (dx * dx + dy * dy)) := by
  intro dx dy
  refine ⟨le_max_left _ _, ?_, rfl⟩
  have h : (0 : ℝ) < distFloor dx dy := lt_of_lt_of_le (by norm_num) (le_max_left _ _)
  exact ne_of_gt h

/-- C8: one invocation of `calculateLayout` changes nothing except class
node positions: the relation list (labels and rendering hints included),
the scalar list, the directive list and the format are returned unchanged,
and the class list keeps, node for node, its identity, display name,
fields, width and height. -/
theorem C8_layoutFrame : ∀ (d : Diagram) (rng : ℕ → ℝ) (ctr : ℕ),
    (calculateLayout d rng ctr).1.Relations = d.Relations ∧
    (calculateLayout d rng ctr).1.Scalars = d.Scalars ∧
    (calculateLayout d rng ctr).1.Directives = d.Directives ∧
    (calculateLayout d rng ctr).1.format = d.format ∧
    (calculateLayout d rng ctr).1.Classes.map nodeShape = d.Classes.map nodeShape :=
  fun d rng ctr => ⟨rfl, rfl, rfl, rfl, calcLayout_classes_shapes d rng ctr⟩

/-- C9: the layout is a deterministic function of the diagram and the
random stream: two runs whose streams agree on the (exactly
`2*(scalars+directives)`) random values the call consumes produce identical
results — in particular two runs from the same seed are identical. -/
theorem C9_sameSeedSameLayout : ∀ (d : Diagram) (rng1 rng2 : ℕ → ℝ) (ctr : ℕ),
    (∀ i, i < 2 * (d.Scalars.length + d.Directives.length) →
      rng1 (ctr + i) = rng2 (ctr + i)) →
    calculateLayout d rng1 ctr = calculateLayout d rng2 ctr := by
  intro d rng1 rng2 ctr h
  have hs : scalarWrappers d.maxWidth d.maxHeight rng1 ctr d.Scalars =
      scalarWrappers d.maxWidth d.maxHeight rng2 ctr d.Scalars :=
    scalarWrappers_congr _ _ _ _ _ _ (fun i hi => h i (by omega))
  have hd : directiveWrappers d.maxWidth d.maxHeight rng1
        (ctr + 2 * d.Scalars.length) d.Directives =
      directiveWrappers d.maxWidth d.maxHeight rng2
        (ctr + 2 * d.Scalars.length) d.Directives :=
    directiveWrappers_congr _ _ _ _ _ _ (fun i hi => by
      rw [show ctr + 2 * d.Scalars.length + i = ctr + (2 * d.Scalars.length + i) from by omega]
      exact h (2 * d.Scalars.length + i) (by omega))
  have hb : buildAllNodes d rng1 ctr = buildAllNodes d rng2 ctr := by
    show (d.Classes ++ scalarWrappers d.maxWidth d.maxHeight rng1 ctr d.Scalars ++
        directiveWrappers d.maxWidth d.maxHeight rng1 (ctr + 2 * d.Scalars.length) d.Directives,
      ctr + 2 * d.Scalars.length + 2 * d.Directives.length) = _
    rw [hs, hd]
    rfl
  unfold calculateLayout
  rw [hb]

/-- C9 (witness): the one-scalar diagram laid out under the all-zero stream
and under a stream agreeing with it only on the two consumed indices. -/
theorem C9_witness : calculateLayout D3 rg9a 0 = calculateLayout D3 rg9b 0 :=
  C9_sameSeedSameLayout D3 rg9a rg9b 0 (by
    intro i hi
    have h2 : i < 2 := by
      simp [D3] at hi
      omega
    simp [rg9a, rg9b, h2])

/-- C10: in mermaid mode `outputDiagram` never invokes the layout engine —
it returns the printed lines together with the diagram and the random
counter exactly as supplied — and the printed lines depend only on the
parsed schema content (classes, scalars, directives, relations and their
attributes), never on any node position. -/
theorem C10_mermaidIndependent :
    (∀ (d : Diagram) (rng : ℕ → ℝ) (ctr : ℕ), d.format = DiagramFormat.Mermaid →
        outputDiagram d rng ctr = (OutputKind.MermaidOut (mermaidLines d), d, ctr)) ∧
    (∀ d1 d2 : Diagram, contentEq d1 d2 → mermaidLines d1 = mermaidLines d2) := by
  constructor
  · intro d rng ctr h
    unfold outputDiagram
    rw [h, if_neg (fun hcon => DiagramFormat.noConfusion hcon)]
  · intro d1 d2 h
    obtain ⟨hc, hs, hd, hr⟩ := h
    unfold mermaidLines
    rw [flatMap_content directiveContent mermaidDirectiveBlock _ _ hd,
      flatMap_content scalarContent mermaidScalarBlock _ _ hs,
      flatMap_content classContent mermaidClassBlock _ _ hc, hr]

/-- C10 (witness): the one-class mermaid diagram `D1` and the same diagram
with the class moved to `(5, 6)` print identical mermaid text, and the
mermaid branch returns its inputs untouched. -/
theorem C10_witness :
    outputDiagram D1 rngHalf 0 = (OutputKind.MermaidOut (mermaidLines D1), D1, 0) ∧
    mermaidLines D1 = mermaidLines DM2 :=
  ⟨C10_mermaidIndependent.1 D1 rngHalf 0 rfl,
   C10_mermaidIndependent.2 D1 DM2 ⟨rfl, rfl, rfl, rfl⟩⟩

/-- C3: the position exposed to the renderer does NOT equal the simulated
position for scalar nodes.  On the one-scalar drawio diagram `D3` the cell
emitted for the scalar carries geometry `(0, 0)` — it is read from
`ScalarNode.Position`, which no layout call ever writes — while the force
simulation has driven the scalar's working node (the only class node of the
final diagram state, id `"scalar_S"`) to a strictly negative x
coordinate. -/
theorem C3_code_divergence :
    ((generateDrawioXML D3 rng3 0).1.map
        (fun c => (c.ID, c.Geometry.map (fun g => (g.X, g.Y))))) =
      [("0", none), ("1", none), ("scalar_S", some ((0 : ℝ), (0 : ℝ)))] ∧
    (generateDrawioXML D3 rng3 0).2.1.Classes.map (fun nd => nd.ID) = ["scalar_S"] ∧
    ((generateDrawioXML D3 rng3 0).2.1.Classes.map (fun nd => nd.Position.X)).headD 1 < 0 := by
  have h1 : calculateLayout D3 rng3 0 = (D3, 2) := rfl
  have hk2 : 0 < Real.sqrt (DA.maxWidth * DA.maxHeight /
      ((DA.Classes.length + DA.Scalars.length + DA.Directives.length : ℕ) : ℝ)) := by
    apply Real.sqrt_pos.mpr
    show (0 : ℝ) < 1920 * 1080 / ((2 : ℕ) : ℝ)
    norm_num
  have hY2 : (wS 2).Position.Y = 0 := by norm_num [wS, rng3]
  have hab2 : nA.Position.X < (wS 2).Position.X := by
    show (0 : ℝ) < rng3 2 * DA.maxWidth
    norm_num [rng3, DA]
  obtain ⟨xa, xb, hsim2, hle2, _, hge2, hstrict2⟩ :=
    simulate_two_y0 _ hk2 100 nA (wS 2) rfl hY2 hab2
  have hxa : xa < 0 := by
    have h := hstrict2 (by omega)
    calc xa < nA.Position.X := h
      _ = 0 := rfl
  have h2 : calculateLayout DA rng3 2 = ({ DA with Classes := [setX nA xa] }, 4) :=
    calculateLayout_eq DA rng3 2 [nA, wS 2] [setX nA xa, setX (wS 2) xb] rfl hsim2
  have hk3 : 0 < Real.sqrt
      ((({ DA with Classes := [setX nA xa] } : Diagram)).maxWidth *
        (({ DA with Classes := [setX nA xa] } : Diagram)).maxHeight /
        (((({ DA with Classes := [setX nA xa] } : Diagram)).Classes.length +
          (({ DA with Classes := [setX nA xa] } : Diagram)).Scalars.length +
          (({ DA with Classes := [setX nA xa] } : Diagram)).Directives.length : ℕ) : ℝ)) := by
    apply Real.sqrt_pos.mpr
    show (0 : ℝ) < 1920 * 1080 / ((2 : ℕ) : ℝ)
    norm_num
  have hY4 : (wS 4).Position.Y = 0 := by norm_num [wS, rng3]
  have hab4 : (setX nA xa).Position.X < (wS 4).Position.X := by
    show xa < rng3 4 * DA.maxWidth
    have h : (0 : ℝ) < rng3 4 * DA.maxWidth := by norm_num [rng3, DA]
    linarith
  obtain ⟨xa2, xb2, hsim3, hle3, _, hge3, _⟩ :=
    simulate_two_y0 _ hk3 100 (setX nA xa) (wS 4) rfl hY4 hab4
  have h3 : calculateLayout { DA with Classes := [setX nA xa] } rng3 4 =
      ({ DA with Classes := [setX nA xa2] }, 6) :=
    calculateLayout_eq { DA with Classes := [setX nA xa] } rng3 4 [setX nA xa, wS 4]
      [setX (setX nA xa) xa2, setX (wS 4) xb2] rfl hsim3
  have hG := generateDrawioXML_eq D3 rng3 0 D3 2 h1
    ({ DA with Classes := [setX nA xa] }) 4 h2 ({ DA with Classes := [setX nA xa2] }) 6 h3
  refine ⟨?_, ?_, ?_⟩
  · rw [hG]
    rfl
  · rw [hG]
    rfl
  · rw [hG]
    show xa2 < 0
    have h : xa2 ≤ xa := by
      calc xa2 ≤ (setX nA xa).Position.X := hle3
        _ = xa := rfl
    linarith

end GraphqlToDiagram
